import Mathlib

/-!
Verification of the user-management microservice (app.py, dto.py, models.py).

The development shallowly embeds the parts of the code that the claims are
about:

* `CircuitBreaker` and `CircuitBreaker.call` embed the `CircuitBreaker` class
  of app.py (lines 171-199).  Timestamps are modelled as integers; the
  outcome of the underlying operation is passed in as a boolean.
* `wait_exponential`, `retryGo` and `tenacityRetry` embed the behaviour of the
  tenacity decorator `@retry(stop=stop_after_attempt(3),
  wait=wait_exponential(multiplier=1, min=2, max=10))` used on
  `execute_with_retry` (line 45) and `create_user_in_login_service`
  (line 137).  The embedding follows tenacity 8.2.2: `wait_exponential`
  clamps `multiplier * exp_base ** (attempt_number - 1)` between `min` and
  `max`, and with the default `reraise=False` an exhausted retry raises
  `RetryError(last_attempt)` rather than the original exception.
* `get_service_url`, `create_user_attempt` and `create_user_in_login_service`
  embed lines 137-160 of app.py.
* `CustomerCreateDTO.validate` embeds dto.py lines 22-36, and
  `create_customer` embeds the POST handler of app.py lines 49-96.  The
  database session is modelled as a list of customer rows; the
  `created_at`/`updated_at` columns of models.py are database-side defaults
  that no claim mentions and are not modelled.
-/

/-- The `state` strings of the breaker: `'CLOSED'`, `'OPEN'`, `'HALF_OPEN'`. -/
inductive BreakerState
  | closed
  | opened
  | halfOpen
deriving DecidableEq, Repr

/-- The fields set up by `CircuitBreaker.__init__` (app.py lines 172-177). -/
structure CircuitBreaker where
  failure_threshold : Nat
  recovery_timeout : Int
  failure_count : Nat
  last_failure_time : Option Int
  state : BreakerState
deriving DecidableEq, Repr

/-- `CircuitBreaker(failure_threshold, recovery_timeout)`. -/
def CircuitBreaker.init (ft : Nat) (rt : Int) : CircuitBreaker :=
  { failure_threshold := ft
    recovery_timeout := rt
    failure_count := 0
    last_failure_time := none
    state := .closed }

/-- What one invocation of `CircuitBreaker.call` can do, seen from the caller:
return the operation result, re-raise the operation's exception, raise
`Exception("Circuit breaker is OPEN")` without running the operation, or hit
the `TypeError` Python would raise when `last_failure_time` is `None` in the
OPEN branch (unreachable from the initial state, kept for faithfulness). -/
inductive CallOutcome
  | success
  | opError
  | circuitOpen
  | pyTypeError
deriving DecidableEq, Repr

/-- Result of one `CircuitBreaker.call`: the outcome, the updated breaker
object, and whether the underlying operation `func` was invoked. -/
structure CallStep where
  outcome : CallOutcome
  cb : CircuitBreaker
  invoked : Bool
deriving DecidableEq, Repr

/-- The `try`/`except` body of `CircuitBreaker.call` (app.py lines 186-197),
entered once the OPEN gate has been passed: run `func`; on success, a
HALF_OPEN breaker closes and resets `failure_count`; on failure, increment
`failure_count`, stamp `last_failure_time`, and open the breaker when the
count reaches `failure_threshold`. -/
def CircuitBreaker.runOp (cb : CircuitBreaker) (now : Int) (opOk : Bool) : CallStep :=
  if opOk then
    if cb.state = .halfOpen then
      { outcome := .success
        cb := { cb with state := .closed, failure_count := 0 }
        invoked := true }
    else
      { outcome := .success, cb := cb, invoked := true }
  else
    let fc := cb.failure_count + 1
    { outcome := .opError
      cb := { cb with
                failure_count := fc
                last_failure_time := some now
                state := if cb.failure_threshold ≤ fc then .opened else cb.state }
      invoked := true }

/-- `CircuitBreaker.call` (app.py lines 179-197).  In the OPEN state, if
`now - last_failure_time > recovery_timeout` the breaker moves to HALF_OPEN
and the attempt proceeds; otherwise `Exception("Circuit breaker is OPEN")` is
raised without invoking the operation. -/
def CircuitBreaker.call (cb : CircuitBreaker) (now : Int) (opOk : Bool) : CallStep :=
  if cb.state = .opened then
    match cb.last_failure_time with
    | none => { outcome := .pyTypeError, cb := cb, invoked := false }
    | some t =>
      if cb.recovery_timeout < now - t then
        CircuitBreaker.runOp { cb with state := .halfOpen } now opOk
      else
        { outcome := .circuitOpen, cb := cb, invoked := false }
  else
    CircuitBreaker.runOp cb now opOk

/-- Breaker objects reachable from `CircuitBreaker(ft, rt)` by any sequence of
`call` invocations (with arbitrary clock readings and operation outcomes). -/
inductive CircuitBreaker.Reachable (ft : Nat) (rt : Int) : CircuitBreaker → Prop
  | init : CircuitBreaker.Reachable ft rt (CircuitBreaker.init ft rt)
  | step {cb : CircuitBreaker} (now : Int) (opOk : Bool) :
      CircuitBreaker.Reachable ft rt cb →
      CircuitBreaker.Reachable ft rt (cb.call now opOk).cb

/-- The state invariant the breaker maintains between calls: a non-CLOSED
breaker has accumulated at least `failure_threshold` consecutive failures and
carries a stamped `last_failure_time`. -/
def CircuitBreaker.Inv (cb : CircuitBreaker) : Prop :=
  cb.state ≠ .closed →
    cb.failure_threshold ≤ cb.failure_count ∧ cb.last_failure_time ≠ none

/-- tenacity `wait_exponential(multiplier, max, exp_base = 2, min).__call__`
for `attempt_number = n`:
`max(max(0, min), min(multiplier * 2 ** (n - 1), max))` (tenacity 8.2.2,
wait.py lines 157-163).  Waits are in whole seconds here, which is exact for
the values the decorators use. -/
def wait_exponential (multiplier mn mx : Nat) (n : Nat) : Nat :=
  max (max 0 mn) (min (multiplier * 2 ^ (n - 1)) mx)

/-- The wait strategy both decorators in app.py use:
`wait_exponential(multiplier=1, min=2, max=10)`. -/
def backoffWait (n : Nat) : Nat :=
  wait_exponential 1 2 10 n

/-- A Python exception escaping a tenacity-decorated function is either the
operation's own exception propagating (only possible on a pre-stop attempt,
which tenacity retries, so never observed by the caller here) or
`tenacity.RetryError` wrapping the last failed attempt. -/
inductive PyErr (ε : Type)
  | raw (e : ε)
  | retryError (e : ε)
deriving DecidableEq, Repr

deriving instance DecidableEq for Except

/-- What one run of a tenacity-decorated function does: the caller-visible
result, how many times the wrapped operation was invoked, and the sleeps
performed between consecutive attempts. -/
structure RetryRun (ε α : Type) where
  result : Except (PyErr ε) α
  attempts : Nat
  waits : List Nat
deriving DecidableEq, Repr

/-- The tenacity retry loop (`BaseRetrying.iter`, tenacity 8.2.2), for
`stop_after_attempt` and `reraise=False` (the default, used by app.py):
attempt `n` runs; on success its value is returned; on failure, if the stop
condition `n >= max_attempt_number` holds, `RetryError(last_attempt)` is
raised, else the loop sleeps `wait(n)` and retries.  `remaining` is the
number of retries the stop condition still allows, `max_attempt_number - n`;
the stop condition holds exactly when it is zero. -/
def retryGo {ε α : Type} (wait : Nat → Nat) (op : Nat → Except ε α)
    (n : Nat) : Nat → RetryRun ε α
  | 0 =>
    match op n with
    | .ok a => { result := .ok a, attempts := 1, waits := [] }
    | .error e => { result := .error (.retryError e), attempts := 1, waits := [] }
  | remaining + 1 =>
    match op n with
    | .ok a => { result := .ok a, attempts := 1, waits := [] }
    | .error _ =>
      let rest := retryGo wait op (n + 1) remaining
      { result := rest.result
        attempts := rest.attempts + 1
        waits := wait n :: rest.waits }

/-- A call to a function decorated `@retry(stop=stop_after_attempt(stopAfter),
wait=wait)`: tenacity numbers attempts from 1. -/
def tenacityRetry {ε α : Type} (wait : Nat → Nat) (stopAfter : Nat)
    (op : Nat → Except ε α) : RetryRun ε α :=
  retryGo wait op 1 (stopAfter - 1)

/-- `execute_with_retry` (app.py lines 45-47): the operation under
`@retry(stop=stop_after_attempt(3), wait=wait_exponential(multiplier=1,
min=2, max=10))`.  `op n` is the outcome of the `n`-th invocation of the
wrapped zero-argument callable. -/
def execute_with_retry {ε α : Type} (op : Nat → Except ε α) : RetryRun ε α :=
  tenacityRetry backoffWait 3 op

/-- The fields of a registry instance that `get_service_url` reads. -/
structure ServiceInstanceRec where
  ipAddr : String
  port : Nat
deriving DecidableEq, Repr

/-- What `eureka_client.get_service_instances(service_name)` did during one
attempt: returned a list of instances, or raised. -/
inductive RegistryResult
  | ok (instances : List ServiceInstanceRec)
  | exc
deriving DecidableEq, Repr

/-- `get_service_url` (app.py lines 152-160): on a registry exception the
`except` block logs and falls through to `return None`; an empty (falsy)
instance list also falls through; otherwise the URL is built from the first
instance. -/
def get_service_url (reg : RegistryResult) : Option String :=
  match reg with
  | .exc => none
  | .ok [] => none
  | .ok (inst :: _) =>
    some ("http://" ++ inst.ipAddr ++ ":" ++ toString inst.port)

/-- Outcome of `requests.post(...)` in one attempt: a response with a status
code, or a raised requests exception (timeout, connection error). -/
inductive HttpResult
  | status (code : Nat)
  | netExc
deriving DecidableEq, Repr

/-- The exceptions the body of `create_user_in_login_service` can raise:
`requests.HTTPError` from `raise_for_status()` (status in [400, 600)), or a
network-level requests exception. -/
inductive DownstreamErr
  | httpError (code : Nat)
  | netError
deriving DecidableEq, Repr

/-- The body of `create_user_in_login_service` (app.py lines 139-150), one
tenacity attempt: resolve the URL; when it is `None` the `if` is skipped and
the function returns `None` normally; otherwise POST and `raise_for_status`.
The inner `except` logs and re-raises unchanged.  The second component
records whether the HTTP request was performed. -/
def create_user_attempt (reg : RegistryResult) (http : HttpResult) :
    Except DownstreamErr Unit × Bool :=
  match get_service_url reg with
  | none => (.ok (), false)
  | some _ =>
    match http with
    | .netExc => (.error .netError, true)
    | .status code =>
      if 400 ≤ code ∧ code < 600 then (.error (.httpError code), true)
      else (.ok (), true)

/-- `create_user_in_login_service` (app.py lines 137-150): the attempt body
under the same tenacity decorator as `execute_with_retry`.  `reg n` and
`http n` are the environment's behaviour during the `n`-th attempt. -/
def create_user_in_login_service (reg : Nat → RegistryResult)
    (http : Nat → HttpResult) : RetryRun DownstreamErr Unit :=
  tenacityRetry backoffWait 3 (fun n => (create_user_attempt (reg n) (http n)).1)

/-- Number of HTTP requests the whole decorated call performed: attempts
`1, ..., attempts` ran, and each performed a request iff its attempt body
reached the `requests.post` line. -/
def downstream_http_calls (reg : Nat → RegistryResult)
    (http : Nat → HttpResult) : Nat :=
  (List.range' 1 (create_user_in_login_service reg http).attempts).countP
    (fun n => (create_user_attempt (reg n) (http n)).2)

/-- The downstream provisioning entry point together with the process-wide
breaker (app.py line 199 creates `circuit_breaker = CircuitBreaker()`).
`create_user_in_login_service` never references `circuit_breaker` — no line
of app.py calls `CircuitBreaker.call` — so the module-level effect of one
provisioning call is: the retry run happens and the breaker object is left
exactly as it was. -/
def provision_with_breaker (cb : CircuitBreaker) (reg : Nat → RegistryResult)
    (http : Nat → HttpResult) : RetryRun DownstreamErr Unit × CircuitBreaker :=
  (create_user_in_login_service reg http, cb)

/-- The request fields of `CustomerCreateDTO` (dto.py lines 31-38). -/
structure CustomerCreateDTO where
  document : String
  firstname : String
  lastname : String
  address : String
  phone : String
  email : String
deriving DecidableEq, Repr

/-- `CustomerCreateDTO.validate` (dto.py lines 40-54): `not s` on a `str`
field is true exactly when the string is empty; each empty field appends its
message to `errors`, in field order. -/
def CustomerCreateDTO.validate (dto : CustomerCreateDTO) : List String :=
  let errors : List String := []
  let errors := if dto.document = "" then errors ++ ["Document is required"] else errors
  let errors := if dto.firstname = "" then errors ++ ["First name is required"] else errors
  let errors := if dto.lastname = "" then errors ++ ["Last name is required"] else errors
  let errors := if dto.address = "" then errors ++ ["Address is required"] else errors
  let errors := if dto.phone = "" then errors ++ ["Phone is required"] else errors
  let errors := if dto.email = "" then errors ++ ["Email is required"] else errors
  errors

/-- A persisted `customer` row (models.py lines 7-16; the timestamp columns
are database-side defaults no claim mentions). -/
structure Customer where
  document : String
  firstname : String
  lastname : String
  address : String
  phone : String
  email : String
deriving DecidableEq, Repr

/-- The responses `create_customer` can produce (app.py lines 60, 66, 89,
96). -/
inductive CreateResult
  | badRequest (errors : List String)
  | conflict
  | created
  | serverError
deriving DecidableEq, Repr

/-- The HTTP status code attached to each response. -/
def CreateResult.status : CreateResult → Nat
  | .badRequest _ => 400
  | .conflict => 409
  | .created => 201
  | .serverError => 500

/-- The `createCustomerValid` field of each response body (`none` when the
body has no such key, as in the 400 body `{'errors': errors}`). -/
def CreateResult.createCustomerValid : CreateResult → Option Bool
  | .badRequest _ => none
  | .conflict => some false
  | .created => some true
  | .serverError => some false

/-- The full effect of one `POST /customer/createcustomer` request. -/
structure CreateOutcome where
  response : CreateResult
  store : List Customer
  downstream_called : Bool
deriving DecidableEq, Repr

/-- `create_customer` (app.py lines 50-96) for a JSON body that builds `dto`:
validate; duplicate check by `document`; persist through
`execute_with_retry(save_customer)` (`save n` is the outcome of the `n`-th
`session.commit()`; an exhausted retry raises `RetryError` into the outer
handler, which answers 500 with nothing committed); then the downstream call
inside `try/except Exception` whose result only feeds a log line, so the
response is 201 whatever it does. -/
def create_customer (dto : CustomerCreateDTO) (store : List Customer)
    (save : Nat → Bool) (reg : Nat → RegistryResult) (http : Nat → HttpResult) :
    CreateOutcome :=
  let errors := dto.validate
  if errors ≠ [] then
    { response := .badRequest errors, store := store, downstream_called := false }
  else
    match store.find? (fun c => c.document == dto.document) with
    | some _ => { response := .conflict, store := store, downstream_called := false }
    | none =>
      let saveRun := execute_with_retry
        (fun n => if save n then Except.ok () else Except.error ())
      match saveRun.result with
      | .error _ =>
        { response := .serverError, store := store, downstream_called := false }
      | .ok _ =>
        let newStore := store ++ [{ document := dto.document
                                    firstname := dto.firstname
                                    lastname := dto.lastname
                                    address := dto.address
                                    phone := dto.phone
                                    email := dto.email }]
        let _down := create_user_in_login_service reg http
        { response := .created, store := newStore, downstream_called := true }

/-- A sequence of `CircuitBreaker.call` invocations on the same breaker
object: each step's updated breaker is the receiver of the next call; the
steps are returned in order. -/
def CircuitBreaker.callSeq (cb : CircuitBreaker) : List (Int × Bool) → List CallStep
  | [] => []
  | (now, opOk) :: rest =>
    let s := cb.call now opOk
    s :: CircuitBreaker.callSeq s.cb rest

/-- The concrete creation requests the witnesses use. -/
def dtoMissingFirstname : CustomerCreateDTO :=
  { document := "123", firstname := "", lastname := "Li", address := "x", phone := "555", email := "a@b.c" }

/-- A fully filled-in creation request. -/
def dtoAna : CustomerCreateDTO :=
  { document := "123", firstname := "Ana", lastname := "Li", address := "x", phone := "555", email := "a@b.c" }

/-- `call` never touches the configuration fields of the breaker. -/
theorem CircuitBreaker.call_config (cb : CircuitBreaker) (now : Int) (opOk : Bool) :
    (cb.call now opOk).cb.failure_threshold = cb.failure_threshold ∧
      (cb.call now opOk).cb.recovery_timeout = cb.recovery_timeout := by
  rcases cb with ⟨ft, rt, fc, lf, st⟩
  unfold CircuitBreaker.call CircuitBreaker.runOp
  rcases st <;> rcases lf <;> rcases opOk <;>
    simp only [] <;> split_ifs <;> simp

/-- One `call` preserves the breaker invariant. -/
theorem CircuitBreaker.call_inv {cb : CircuitBreaker} (h : cb.Inv)
    (now : Int) (opOk : Bool) : (cb.call now opOk).cb.Inv := by
  rcases cb with ⟨ft, rt, fc, lf, st⟩
  simp only [CircuitBreaker.Inv] at h ⊢
  unfold CircuitBreaker.call CircuitBreaker.runOp
  rcases st <;> rcases lf <;> rcases opOk <;> simp_all <;>
    split_ifs <;> simp_all <;> omega

/-- Structural facts about every reachable breaker: the configuration fields
are those of the constructor and the step invariant `Inv` holds. -/
theorem CircuitBreaker.reachable_inv {ft : Nat} {rt : Int} {cb : CircuitBreaker}
    (h : CircuitBreaker.Reachable ft rt cb) :
    cb.failure_threshold = ft ∧ cb.recovery_timeout = rt ∧ cb.Inv := by
  induction h with
  | init => exact ⟨rfl, rfl, by intro hne; simp [CircuitBreaker.init] at hne⟩
  | step now opOk _ ih =>
    obtain ⟨hft, hrt, hinv⟩ := ih
    rename_i cb _
    obtain ⟨hc1, hc2⟩ := CircuitBreaker.call_config cb now opOk
    exact ⟨hc1.trans hft, hc2.trans hrt, CircuitBreaker.call_inv hinv now opOk⟩

/-- A run whose first attempt succeeds stops after one invocation. -/
theorem retryGo_first_ok {ε α : Type} (wait : Nat → Nat) (op : Nat → Except ε α)
    (n r : Nat) (a : α) (h : op n = .ok a) :
    retryGo wait op n r = { result := .ok a, attempts := 1, waits := [] } := by
  cases r <;> simp [retryGo, h]

/-- A run all of whose attempts fail performs them all, sleeps between
consecutive ones, and ends in `RetryError` around the last attempt's error. -/
theorem retryGo_all_fail {ε α : Type} (wait : Nat → Nat) (op : Nat → Except ε α)
    (err : Nat → ε) (herr : ∀ k, op k = .error (err k)) (n r : Nat) :
    retryGo wait op n r =
      { result := .error (.retryError (err (n + r)))
        attempts := r + 1
        waits := (List.range' n r).map wait } := by
  induction r generalizing n with
  | zero => simp [retryGo, herr n]
  | succ r ih =>
    simp only [retryGo, herr n, ih (n + 1), List.range'_succ, List.map_cons]
    have harith : n + 1 + r = n + (r + 1) := by omega
    rw [harith]

/-- Claim C4 counterexample: a save callable that fails on every attempt.
`execute_with_retry` makes the caller see `tenacity.RetryError` wrapping the
last attempt, not the operation's own error: the run's result is the wrapped
error and differs from the unwrapped one the claim announces. -/
theorem C4_counterexample :
    (execute_with_retry (fun _ => (Except.error 0 : Except Nat Unit))).result
        = .error (.retryError 0) ∧
    (execute_with_retry (fun _ => (Except.error 0 : Except Nat Unit))).result
        ≠ .error (.raw 0) := by
  exact ⟨rfl, by decide⟩

/-- Claim C4 (amended): for every operation that fails on all attempts, the
retry executor performs exactly 3 attempts and then raises
`tenacity.RetryError` wrapping the last attempt's error — the last error is
preserved inside the wrapper, but the exception the caller sees is the
wrapper, never the raw error itself. -/
theorem C4_retry_wraps_last_error {ε α : Type} (op : Nat → Except ε α)
    (err : Nat → ε) (herr : ∀ k, op k = .error (err k)) :
    (execute_with_retry op).result = .error (.retryError (err 3)) ∧
    (execute_with_retry op).attempts = 3 ∧
    ∀ e : ε, (execute_with_retry op).result ≠ .error (.raw e) := by
  unfold execute_with_retry tenacityRetry
  rw [retryGo_all_fail backoffWait op err herr 1 2]
  refine ⟨rfl, rfl, fun e h => ?_⟩
  simp at h

/-- Witness for C4: the counted attempts and wrapped error on a concrete
always-failing operation. -/
theorem C4_retry_wraps_last_error_witness :
    (execute_with_retry (fun _ => (Except.error 7 : Except Nat Unit))).result
        = .error (.retryError 7) ∧
    (execute_with_retry (fun _ => (Except.error 7 : Except Nat Unit))).attempts = 3 := by
  have h := C4_retry_wraps_last_error (fun _ => (Except.error 7 : Except Nat Unit))
    (fun _ => 7) (fun _ => rfl)
  exact ⟨h.1, h.2.1⟩

/-- Claim C7: for every attempt number `n ≥ 1`, the wait configured on both
decorators equals `multiplier * 2 ^ (n - 1)` clamped below by `min = 2` and
above by `max = 10`; the waits are non-decreasing in the attempt number and
never exceed 10. -/
theorem C7_backoff_formula_monotone_bounded (n m : Nat) (h1 : 1 ≤ n) (hnm : n ≤ m) :
    backoffWait n = max 2 (min (1 * 2 ^ (n - 1)) 10) ∧
    backoffWait n ≤ backoffWait m ∧
    backoffWait n ≤ 10 := by
  refine ⟨by simp [backoffWait, wait_exponential], ?_, ?_⟩
  · have hp : 2 ^ (n - 1) ≤ 2 ^ (m - 1) :=
      Nat.pow_le_pow_right (by norm_num) (by omega)
    unfold backoffWait wait_exponential
    simp only [one_mul]
    exact max_le_max le_rfl (min_le_min hp le_rfl)
  · unfold backoffWait wait_exponential
    exact max_le (by norm_num) (min_le_right _ _)

/-- Witness for C7: the backoff formula, monotonicity and bound at attempts
1 and 3. -/
theorem C7_backoff_witness :
    backoffWait 1 = max 2 (min (1 * 2 ^ (1 - 1)) 10) ∧
    backoffWait 1 ≤ backoffWait 3 ∧
    backoffWait 1 ≤ 10 :=
  C7_backoff_formula_monotone_bounded 1 3 (by decide) (by decide)

/-- Claim C2 counterexample: a breaker that is OPEN with 5 recorded failures,
a registry that resolves LOGIN-SERVICE, and a network that fails every POST.
The provisioning call performs 3 HTTP requests even though the breaker is
OPEN, all 3 attempts fail, and the breaker's failure count and state are
untouched — so the provisioning sequence is not executed through
`CircuitBreaker.call`. -/
theorem C2_counterexample :
    (provision_with_breaker
        { failure_threshold := 5, recovery_timeout := 60, failure_count := 5
          last_failure_time := some 0, state := .opened }
        (fun _ => .ok [{ ipAddr := "10.0.0.1", port := 8083 }])
        (fun _ => .netExc)).1.result = .error (.retryError .netError) ∧
    downstream_http_calls
        (fun _ => .ok [{ ipAddr := "10.0.0.1", port := 8083 }])
        (fun _ => .netExc) = 3 ∧
    (provision_with_breaker
        { failure_threshold := 5, recovery_timeout := 60, failure_count := 5
          last_failure_time := some 0, state := .opened }
        (fun _ => .ok [{ ipAddr := "10.0.0.1", port := 8083 }])
        (fun _ => .netExc)).2.failure_count = 5 ∧
    (provision_with_breaker
        { failure_threshold := 5, recovery_timeout := 60, failure_count := 5
          last_failure_time := some 0, state := .opened }
        (fun _ => .ok [{ ipAddr := "10.0.0.1", port := 8083 }])
        (fun _ => .netExc)).2.state = .opened := by
  exact ⟨rfl, rfl, rfl, rfl⟩

/-- Claim C2 (amended): no downstream provisioning attempt is executed
through `CircuitBreaker.call`; the process-wide breaker instance is
constructed but never consulted, so a provisioning call leaves the breaker
object exactly as it was and its retry run is the same whatever breaker
state the process holds. -/
theorem C2_breaker_never_wired (cb cb2 : CircuitBreaker)
    (reg : Nat → RegistryResult) (http : Nat → HttpResult) :
    (provision_with_breaker cb reg http).2 = cb ∧
    (provision_with_breaker cb reg http).1 = (provision_with_breaker cb2 reg http).1 :=
  ⟨rfl, rfl⟩

/-- Claim C3 counterexample: the registry call raises on every attempt.  The
invocation ends with a normal `None` return — `Except.ok`, no
`DownstreamError` of any kind — and the process-wide breaker records
nothing. -/
theorem C3_counterexample :
    (create_user_in_login_service (fun _ => .exc) (fun _ => .netExc)).result = .ok () ∧
    (provision_with_breaker (CircuitBreaker.init 5 60) (fun _ => .exc)
        (fun _ => .netExc)).2 = CircuitBreaker.init 5 60 := by
  exact ⟨rfl, rfl⟩

/-- Claim C3 (amended): for every invocation in which service resolution
fails on the first attempt (no instances or a registry error),
`create_user_in_login_service` returns normally after that single attempt:
no error is yielded, no HTTP request is made, and the circuit breaker —
which the provisioning path never consults — is unchanged. -/
theorem C3_resolution_failure_silent (cb : CircuitBreaker)
    (reg : Nat → RegistryResult) (http : Nat → HttpResult)
    (h : get_service_url (reg 1) = none) :
    (create_user_in_login_service reg http).result = .ok () ∧
    (create_user_in_login_service reg http).attempts = 1 ∧
    downstream_http_calls reg http = 0 ∧
    (provision_with_breaker cb reg http).2 = cb := by
  have hop : (create_user_attempt (reg 1) (http 1)).1 = .ok () := by
    simp [create_user_attempt, h]
  have hrun : create_user_in_login_service reg http =
      { result := .ok (), attempts := 1, waits := [] } := by
    unfold create_user_in_login_service tenacityRetry
    exact retryGo_first_ok backoffWait _ 1 2 () hop
  refine ⟨by rw [hrun], by rw [hrun], ?_, rfl⟩
  unfold downstream_http_calls
  rw [hrun]
  simp [create_user_attempt, h]

/-- Witness for C3 (amended): registry raising on every attempt. -/
theorem C3_resolution_failure_silent_witness :
    (create_user_in_login_service (fun _ => .exc) (fun _ => .status 201)).result = .ok () ∧
    (create_user_in_login_service (fun _ => .exc) (fun _ => .status 201)).attempts = 1 ∧
    downstream_http_calls (fun _ => .exc) (fun _ => .status 201) = 0 ∧
    (provision_with_breaker (CircuitBreaker.init 5 60) (fun _ => .exc)
        (fun _ => .status 201)).2 = CircuitBreaker.init 5 60 :=
  C3_resolution_failure_silent (CircuitBreaker.init 5 60) (fun _ => .exc)
    (fun _ => .status 201) rfl

/-- Claim C10: whenever `get_service_url` yields `None` on the attempt,
`create_user_in_login_service` returns normally: no HTTP request, no raise,
a single tenacity attempt (treated as success, so no retry is consumed), no
breaker effect — and the caller-visible result is identical to that of a run
whose resolution and POST both succeed, so the workflow cannot tell the
skipped provisioning from a successful one. -/
theorem C10_resolution_none_silent_skip (cb : CircuitBreaker)
    (reg reg2 : Nat → RegistryResult) (http http2 : Nat → HttpResult)
    (h : get_service_url (reg 1) = none)
    (h2 : create_user_attempt (reg2 1) (http2 1) = (.ok (), true)) :
    (create_user_in_login_service reg http).result = .ok () ∧
    (create_user_in_login_service reg http).attempts = 1 ∧
    downstream_http_calls reg http = 0 ∧
    (provision_with_breaker cb reg http).2 = cb ∧
    (create_user_in_login_service reg http).result
      = (create_user_in_login_service reg2 http2).result := by
  have hop : (create_user_attempt (reg 1) (http 1)).1 = .ok () := by
    simp [create_user_attempt, h]
  have hrun : create_user_in_login_service reg http =
      { result := .ok (), attempts := 1, waits := [] } := by
    unfold create_user_in_login_service tenacityRetry
    exact retryGo_first_ok backoffWait _ 1 2 () hop
  have hrun2 : create_user_in_login_service reg2 http2 =
      { result := .ok (), attempts := 1, waits := [] } := by
    unfold create_user_in_login_service tenacityRetry
    exact retryGo_first_ok backoffWait _ 1 2 () (by rw [h2])
  refine ⟨by rw [hrun], by rw [hrun], ?_, rfl, by rw [hrun, hrun2]⟩
  unfold downstream_http_calls
  rw [hrun]
  simp [create_user_attempt, h]

/-- Witness for C10: registry raising versus a resolved instance with a 2xx
response. -/
theorem C10_resolution_none_silent_skip_witness :
    (create_user_in_login_service (fun _ => .exc) (fun _ => .netExc)).result = .ok () ∧
    (create_user_in_login_service (fun _ => .exc) (fun _ => .netExc)).attempts = 1 ∧
    downstream_http_calls (fun _ => .exc) (fun _ => .netExc) = 0 ∧
    (provision_with_breaker (CircuitBreaker.init 3 30) (fun _ => .exc)
        (fun _ => .netExc)).2 = CircuitBreaker.init 3 30 ∧
    (create_user_in_login_service (fun _ => .exc) (fun _ => .netExc)).result
      = (create_user_in_login_service
          (fun _ => .ok [{ ipAddr := "10.0.0.1", port := 8083 }])
          (fun _ => .status 201)).result :=
  C10_resolution_none_silent_skip (CircuitBreaker.init 3 30) (fun _ => .exc)
    (fun _ => .ok [{ ipAddr := "10.0.0.1", port := 8083 }]) (fun _ => .netExc)
    (fun _ => .status 201) rfl rfl

/-- Claim C5: with the default `failure_threshold = 5`, five consecutive
failing calls open the breaker, and a sixth call made while
`now - last_failure_time <= recovery_timeout` raises the circuit-open
exception without invoking the underlying operation: exactly 5 of the 6
calls invoked it. -/
theorem C5_sixth_call_rejected_fast (t1 t2 t3 t4 t5 t6 : Int)
    (h : t6 - t5 ≤ 60) :
    ((CircuitBreaker.init 5 60).callSeq
        [(t1, false), (t2, false), (t3, false), (t4, false), (t5, false),
          (t6, false)]).map CallStep.outcome =
      [.opError, .opError, .opError, .opError, .opError, .circuitOpen] ∧
    ((CircuitBreaker.init 5 60).callSeq
        [(t1, false), (t2, false), (t3, false), (t4, false), (t5, false),
          (t6, false)]).map CallStep.invoked =
      [true, true, true, true, true, false] ∧
    (((CircuitBreaker.init 5 60).callSeq
        [(t1, false), (t2, false), (t3, false), (t4, false), (t5, false),
          (t6, false)]).map CallStep.invoked).count true = 5 := by
  have h6 : ¬ (60 : Int) < t6 - t5 := by omega
  simp [CircuitBreaker.callSeq, CircuitBreaker.call, CircuitBreaker.runOp,
    CircuitBreaker.init, h6, List.count_cons]

/-- Witness for C5: all six calls at time 0. -/
theorem C5_sixth_call_rejected_fast_witness :
    ((CircuitBreaker.init 5 60).callSeq
        [(0, false), (0, false), (0, false), (0, false), (0, false),
          (0, false)]).map CallStep.outcome =
      [.opError, .opError, .opError, .opError, .opError, .circuitOpen] ∧
    ((CircuitBreaker.init 5 60).callSeq
        [(0, false), (0, false), (0, false), (0, false), (0, false),
          (0, false)]).map CallStep.invoked =
      [true, true, true, true, true, false] ∧
    (((CircuitBreaker.init 5 60).callSeq
        [(0, false), (0, false), (0, false), (0, false), (0, false),
          (0, false)]).map CallStep.invoked).count true = 5 :=
  C5_sixth_call_rejected_fast 0 0 0 0 0 0 (by decide)

/-- Claim C6: a reachable breaker sitting OPEN whose recovery timeout has
elapsed admits the next call as the single HALF_OPEN trial (the operation
is invoked); a successful trial closes the breaker and resets the failure
count to 0, and a failed trial re-opens it — whatever the threshold — so a
further call within the recovery timeout is rejected fast without invoking
the operation. -/
theorem C6_halfopen_trial_and_recovery (ft : Nat) (rt : Int)
    (cb : CircuitBreaker) (t now : Int) (opOk : Bool)
    (hr : CircuitBreaker.Reachable ft rt cb)
    (hs : cb.state = .opened)
    (hl : cb.last_failure_time = some t)
    (ht : rt < now - t) :
    (cb.call now opOk).invoked = true ∧
    (opOk = true → (cb.call now opOk).cb.state = .closed ∧
      (cb.call now opOk).cb.failure_count = 0) ∧
    (opOk = false → (cb.call now opOk).cb.state = .opened ∧
      ∀ n2 : Int, ∀ ok2 : Bool, n2 - now ≤ rt →
        ((cb.call now opOk).cb.call n2 ok2).outcome = .circuitOpen ∧
        ((cb.call now opOk).cb.call n2 ok2).invoked = false) := by
  obtain ⟨hft, hrt, hinv⟩ := CircuitBreaker.reachable_inv hr
  have hcnt : ft ≤ cb.failure_count := by
    simpa [hft] using (hinv (by simp [hs])).1
  cases opOk with
  | true =>
    -- the trial succeeds: CLOSED with failure_count = 0
    have hcall : cb.call now true =
        CircuitBreaker.runOp { cb with state := .halfOpen } now true := by
      simp [CircuitBreaker.call, hs, hl, hrt, ht]
    rw [hcall]
    unfold CircuitBreaker.runOp
    simp
  | false =>
    -- the trial fails: re-open, then fast rejection within the timeout
    have hcall : cb.call now false =
        CircuitBreaker.runOp { cb with state := .halfOpen } now false := by
      simp [CircuitBreaker.call, hs, hl, hrt, ht]
    have hstep : (cb.call now false).cb =
        { cb with failure_count := cb.failure_count + 1
                  last_failure_time := some now
                  state := .opened } := by
      rw [hcall]
      unfold CircuitBreaker.runOp
      have hge : cb.failure_threshold ≤ cb.failure_count + 1 := by omega
      simp [hge]
    refine ⟨?_, by simp, ?_⟩
    · rw [hcall]
      unfold CircuitBreaker.runOp
      simp
    · intro _
      refine ⟨by rw [hstep], fun n2 ok2 h2 => ?_⟩
      rw [hstep]
      unfold CircuitBreaker.call
      have hnot : ¬ (cb.recovery_timeout < n2 - now) := by omega
      simp [hnot]

/-- Witness for C6: the breaker produced by five failures at times 0..4 from
the default configuration, trial call at time 65 succeeding, and the failing
trial at time 65 followed by a rejected call at time 70. -/
theorem C6_halfopen_trial_and_recovery_witness :
    (let cb := ((((((CircuitBreaker.init 5 60).call 0 false).cb.call 1
        false).cb.call 2 false).cb.call 3 false).cb.call 4 false).cb
     (cb.call 65 true).invoked = true ∧
       (cb.call 65 true).cb.state = .closed ∧
       (cb.call 65 true).cb.failure_count = 0) ∧
    (let cb := ((((((CircuitBreaker.init 5 60).call 0 false).cb.call 1
        false).cb.call 2 false).cb.call 3 false).cb.call 4 false).cb
     (cb.call 65 false).cb.state = .opened ∧
       ((cb.call 65 false).cb.call 70 true).outcome = .circuitOpen ∧
       ((cb.call 65 false).cb.call 70 true).invoked = false) := by
  have hr : CircuitBreaker.Reachable 5 60
      ((((((CircuitBreaker.init 5 60).call 0 false).cb.call 1
        false).cb.call 2 false).cb.call 3 false).cb.call 4 false).cb :=
    .step 4 false (.step 3 false (.step 2 false (.step 1 false
      (.step 0 false .init))))
  have hT := C6_halfopen_trial_and_recovery 5 60 _ 4 65 true hr rfl rfl (by decide)
  have hF := C6_halfopen_trial_and_recovery 5 60 _ 4 65 false hr rfl rfl (by decide)
  refine ⟨⟨hT.1, (hT.2.1 rfl).1, (hT.2.1 rfl).2⟩, ?_⟩
  have h2 := hF.2.2 rfl
  exact ⟨h2.1, (h2.2 70 true (by decide)).1, (h2.2 70 true (by decide)).2⟩

/-- Claim C8: across every call sequence from the initial CLOSED state, an
OPEN breaker always carries a stamped `last_failure_time`, and a call resets
a non-zero `failure_count` to 0 exactly when that call transitions the
breaker into CLOSED from a different state. -/
theorem C8_breaker_state_invariants (ft : Nat) (rt : Int) (cb : CircuitBreaker)
    (hr : CircuitBreaker.Reachable ft rt cb) :
    (cb.state = .opened → cb.last_failure_time ≠ none) ∧
    (∀ now : Int, ∀ opOk : Bool, cb.failure_count ≠ 0 →
      (((cb.call now opOk).cb.failure_count = 0) ↔
        (cb.state ≠ .closed ∧ (cb.call now opOk).cb.state = .closed))) := by
  obtain ⟨hft, hrt, hinv⟩ := CircuitBreaker.reachable_inv hr
  constructor
  · intro hs
    exact (hinv (by simp [hs])).2
  · intro now opOk hc
    clear hinv
    rcases cb with ⟨ft2, rt2, fc, lf, st⟩
    simp only at hc
    unfold CircuitBreaker.call CircuitBreaker.runOp
    rcases st <;> rcases lf <;> rcases opOk <;> simp_all <;>
      split_ifs <;> simp_all

/-- Witness for C8: the breaker after one failing call from the default
configuration, stepped by a further failing call at time 1. -/
theorem C8_breaker_state_invariants_witness :
    (((CircuitBreaker.init 5 60).call 0 false).cb.state = .opened →
      ((CircuitBreaker.init 5 60).call 0 false).cb.last_failure_time ≠ none) ∧
    (((((CircuitBreaker.init 5 60).call 0 false).cb.call 1 false).cb.failure_count = 0) ↔
      (((CircuitBreaker.init 5 60).call 0 false).cb.state ≠ .closed ∧
        ((((CircuitBreaker.init 5 60).call 0 false).cb.call 1 false).cb.state = .closed))) := by
  have h := C8_breaker_state_invariants 5 60
    ((CircuitBreaker.init 5 60).call 0 false).cb (.step 0 false .init)
  exact ⟨h.1, h.2 1 false (by decide)⟩

/-- Closed form of `validate`: the concatenation, in field order, of one
message per empty field. -/
theorem CustomerCreateDTO.validate_eq (dto : CustomerCreateDTO) :
    dto.validate =
      (if dto.document = "" then ["Document is required"] else []) ++
      (if dto.firstname = "" then ["First name is required"] else []) ++
      (if dto.lastname = "" then ["Last name is required"] else []) ++
      (if dto.address = "" then ["Address is required"] else []) ++
      (if dto.phone = "" then ["Phone is required"] else []) ++
      (if dto.email = "" then ["Email is required"] else []) := by
  unfold CustomerCreateDTO.validate
  split_ifs <;> simp

/-- Claim C9: a creation request with one or more empty required fields is
answered 400 with the `errors` list carrying the message of every missing
field, nothing is written to the store, and no downstream provisioning call
is attempted. -/
theorem C9_validation_rejects_missing_fields (dto : CustomerCreateDTO)
    (store : List Customer) (save : Nat → Bool)
    (reg : Nat → RegistryResult) (http : Nat → HttpResult)
    (h : dto.document = "" ∨ dto.firstname = "" ∨ dto.lastname = "" ∨
      dto.address = "" ∨ dto.phone = "" ∨ dto.email = "") :
    (create_customer dto store save reg http).response = .badRequest dto.validate ∧
    (create_customer dto store save reg http).response.status = 400 ∧
    (create_customer dto store save reg http).store = store ∧
    (create_customer dto store save reg http).downstream_called = false ∧
    (dto.document = "" → "Document is required" ∈ dto.validate) ∧
    (dto.firstname = "" → "First name is required" ∈ dto.validate) ∧
    (dto.lastname = "" → "Last name is required" ∈ dto.validate) ∧
    (dto.address = "" → "Address is required" ∈ dto.validate) ∧
    (dto.phone = "" → "Phone is required" ∈ dto.validate) ∧
    (dto.email = "" → "Email is required" ∈ dto.validate) := by
  have hne : dto.validate ≠ [] := by
    rw [CustomerCreateDTO.validate_eq]
    rcases h with h | h | h | h | h | h <;> simp [h]
  have hresp : create_customer dto store save reg http =
      { response := .badRequest dto.validate, store := store
        downstream_called := false } := by
    unfold create_customer
    rw [if_pos hne]
  refine ⟨by rw [hresp], by rw [hresp]; rfl, by rw [hresp], by rw [hresp],
    ?_, ?_, ?_, ?_, ?_, ?_⟩ <;>
    intro hf <;> rw [CustomerCreateDTO.validate_eq] <;> simp [hf]

/-- Witness for C9: an empty `firstname`. -/
theorem C9_validation_rejects_missing_fields_witness :
    (create_customer dtoMissingFirstname [] (fun _ => true) (fun _ => .exc)
        (fun _ => .netExc)).response = .badRequest dtoMissingFirstname.validate ∧
    (create_customer dtoMissingFirstname [] (fun _ => true) (fun _ => .exc)
        (fun _ => .netExc)).response.status = 400 ∧
    (create_customer dtoMissingFirstname [] (fun _ => true) (fun _ => .exc)
        (fun _ => .netExc)).store = [] ∧
    (create_customer dtoMissingFirstname [] (fun _ => true) (fun _ => .exc)
        (fun _ => .netExc)).downstream_called = false ∧
    "First name is required" ∈ dtoMissingFirstname.validate := by
  have h := C9_validation_rejects_missing_fields dtoMissingFirstname []
    (fun _ => true) (fun _ => .exc) (fun _ => .netExc) (by right; left; rfl)
  exact ⟨h.1, h.2.1, h.2.2.1, h.2.2.2.1, h.2.2.2.2.2.1 rfl⟩

/-- Claim C1: once validation, the duplicate check and the retried persist
succeed, the response is `201 {'createCustomerValid': true}` whatever the
downstream provisioning does: the same response is produced under any two
downstream environments (registry and network behaviours), because the
`try`/`except` around `create_user_in_login_service` absorbs every
exception, including an exhausted retry. -/
theorem C1_downstream_failure_isolated (dto : CustomerCreateDTO)
    (store : List Customer) (save : Nat → Bool)
    (reg reg2 : Nat → RegistryResult) (http http2 : Nat → HttpResult)
    (hv : dto.validate = [])
    (hu : store.find? (fun c => c.document == dto.document) = none)
    (hs : (execute_with_retry
        (fun n => if save n then Except.ok () else Except.error ())).result
      = .ok ()) :
    (create_customer dto store save reg http).response = .created ∧
    (create_customer dto store save reg http).response.status = 201 ∧
    (create_customer dto store save reg http).response.createCustomerValid
      = some true ∧
    (create_customer dto store save reg http).response
      = (create_customer dto store save reg2 http2).response := by
  have hresp : ∀ (r : Nat → RegistryResult) (ht : Nat → HttpResult),
      (create_customer dto store save r ht).response = .created := by
    intro r ht
    unfold create_customer
    rw [if_neg (by simp [hv]), hu]
    simp only [hs]
  exact ⟨hresp reg http, by rw [hresp reg http]; rfl,
    by rw [hresp reg http]; rfl, by rw [hresp reg http, hresp reg2 http2]⟩

/-- Witness for C1: a valid request over an empty store whose save succeeds
at once, under a registry that raises versus a resolved instance whose POSTs
always fail at network level. -/
theorem C1_downstream_failure_isolated_witness :
    (create_customer dtoAna [] (fun _ => true) (fun _ => .exc)
        (fun _ => .netExc)).response = .created ∧
    (create_customer dtoAna [] (fun _ => true) (fun _ => .exc)
        (fun _ => .netExc)).response.status = 201 ∧
    (create_customer dtoAna [] (fun _ => true) (fun _ => .exc)
        (fun _ => .netExc)).response.createCustomerValid = some true ∧
    (create_customer dtoAna [] (fun _ => true) (fun _ => .exc)
        (fun _ => .netExc)).response
      = (create_customer dtoAna [] (fun _ => true)
          (fun _ => .ok [{ ipAddr := "10.0.0.1", port := 8083 }])
          (fun _ => .netExc)).response :=
  C1_downstream_failure_isolated dtoAna [] (fun _ => true) (fun _ => .exc)
    (fun _ => .ok [{ ipAddr := "10.0.0.1", port := 8083 }]) (fun _ => .netExc)
    (fun _ => .netExc) rfl rfl rfl
